import Mathlib

/-!
# make_exception_ptr

Verification development for `include/scratch/bits/stdexcept/make-exception-ptr.h`:

    template<class E>
    std::exception_ptr make_exception_ptr(E&& e) noexcept
    {
        try {
            throw std::forward<E>(e);
        } catch (...) {
            return std::current_exception();
        }
    }

The function body is embedded statement by statement over an explicit machine
state.  The language primitives it is built from (`throw`, `catch (...)`,
`std::forward`, `std::current_exception`, `std::rethrow_exception`, `noexcept`)
are given their ISO C++ meaning, with the exception objects kept in place as
the Itanium C++ ABI does (a handle refers to the thrown object itself, not to a
copy).  The program around the call is a parameter of the model: the copy and move
constructors that each type declares, and what each of them does to the
objects of the program.  Volatile qualification, constructor templates and
conversion functions are outside the model.
-/

namespace scratch

/-! ## Types -/

/-- C++ type expressions, as far as the exception machinery tells them apart. -/
inductive CppType where
  | named (name : String)
  | pointerTo (pointee : CppType)
  | arrayOf (element : CppType) (extent : Nat)
  | function (signature : String)
  | const (t : CppType)
  | lvalueRef (t : CppType)
  | rvalueRef (t : CppType)
  deriving DecidableEq

/-- Model of `std::remove_reference_t`. -/
def remove_reference : CppType → CppType
  | .lvalueRef t => t
  | .rvalueRef t => t
  | t => t

/-- Whether a non-reference type is const-qualified at top level. -/
def isConstQualified : CppType → Bool
  | .const _ => true
  | _ => false

/-- Whether an operand of this non-reference type is thrown by value.  Arrays
and functions are not: they are converted to a pointer first. -/
def isThrownByValue : CppType → Bool
  | .arrayOf _ _ => false
  | .const (.arrayOf _ _) => false
  | .function _ => false
  | .const (.function _) => false
  | _ => true

/-- The type of the exception object for a throw operand of the given static
(non-reference) type: top-level cv-qualifiers are removed, "array of `U`"
becomes "pointer to `U`" and a function type becomes "pointer to function". -/
def exceptionObjectType : CppType → CppType
  | .arrayOf u _ => .pointerTo u
  | .const (.arrayOf u _) => .pointerTo (.const u)
  | .function s => .pointerTo (.function s)
  | .const (.function s) => .pointerTo (.function s)
  | .const t => t
  | t => t

/-! ## Objects and handles -/

/-- A complete object: its most-derived type and its content.  Exception
objects are objects of this kind. -/
structure Object (Val : Type) where
  type : CppType
  content : Val
  deriving DecidableEq

/-- Index of an object in the object store. -/
abbrev Address := Nat

/-- Model of `std::exception_ptr`: null, or a reference to an exception object. -/
structure exception_ptr where
  target : Option Address
  deriving DecidableEq

/-! ## Constructors and overload resolution -/

/-- How a constructor call ends, relative to the `n` objects it leaves: it has
built the new object, it has exited via a new exception object, or it has
exited by rethrowing one of the existing objects (`std::rethrow_exception`
raises the object itself, not a copy). -/
inductive CtorOutcome (Val : Type) (n : Nat) where
  | built (content : Val)
  | threw (x : Object Val)
  | rethrew (a : Fin n)

/-- The result of a constructor call: the objects of the program as the call left
them (a constructor may modify its source and anything else it can reach), and
how the call ended. -/
structure CtorResult (Val : Type) where
  store : List (Object Val)
  outcome : CtorOutcome Val store.length

/-- What running a copy or move constructor does, given the address of its
source and all objects of the program. -/
abbrev Ctor (Val : Type) := Address → List (Object Val) → CtorResult Val

/-- The exception that a constructor call exited with, if it did. -/
def CtorResult.exception {Val : Type} (r : CtorResult Val) : Option (Object Val) :=
  match r.outcome with
  | .built _ => none
  | .threw x => some x
  | .rethrew a => some (r.store.get a)

/-- The exception object that is in flight after the initialisation of an
exception object of type `T`: the object built, or the exception it exited with. -/
def CtorResult.inFlight {Val : Type} (T : CppType) (r : CtorResult Val) : Object Val :=
  match r.outcome with
  | .built v => ⟨T, v⟩
  | .threw x => x
  | .rethrew a => r.store.get a

/-- Declaration state of one constructor signature. -/
inductive Declared (Val : Type) where
  | absent
  | deleted
  | defined (run : Ctor Val)

/-- The copy and move constructors of a type `T`: `T(T&)`, `T(const T&)`,
`T(T&&)` and `T(const T&&)`.  A scalar or pointer type counts as a type whose
`T(const T&)` is defined and reads its source. -/
structure ClassType (Val : Type) where
  copyMut : Declared Val
  copyConst : Declared Val
  moveMut : Declared Val
  moveConst : Declared Val

/-- Whether a constructor is a copy or a move constructor. -/
inductive CtorKind where
  | copy
  | move
  deriving DecidableEq

/-- Value category of a glvalue expression. -/
inductive ValueCategory where
  | lvalue
  | xvalue
  deriving DecidableEq

/-- The constructors that can bind an operand of the given constness and value
category, best match first. -/
def candidates {Val : Type} (T : ClassType Val) (isConst : Bool) (cat : ValueCategory) :
    List (CtorKind × Declared Val) :=
  match cat, isConst with
  | .lvalue, false => [(.copy, T.copyMut), (.copy, T.copyConst)]
  | .lvalue, true => [(.copy, T.copyConst)]
  | .xvalue, false => [(.move, T.moveMut), (.move, T.moveConst), (.copy, T.copyConst)]
  | .xvalue, true => [(.move, T.moveConst), (.copy, T.copyConst)]

/-- The best declared candidate; `none` when there is none or it is deleted
(the initialisation is ill-formed). -/
def bestViable {Val : Type} : List (CtorKind × Declared Val) → Option (CtorKind × Ctor Val)
  | [] => none
  | (_, .absent) :: rest => bestViable rest
  | (_, .deleted) :: _ => none
  | (k, .defined run) :: _ => some (k, run)

/-- Overload resolution for copy-initialising a `T` from an operand of type
`cv T`. -/
def selectConstructor {Val : Type} (T : ClassType Val) (isConst : Bool) (cat : ValueCategory) :
    Option (CtorKind × Ctor Val) :=
  bestViable (candidates T isConst cat)

/-- The program in which the call is made: the copy and move constructors that
each (cv-unqualified) type declares, and the pointer value that the
array-to-pointer or function-to-pointer conversion yields for the entity at a
given address. -/
structure Program (Val : Type) where
  constructors : CppType → ClassType Val
  decayed : Address → Val

/-- A glvalue expression that designates the argument: its static
(non-reference) type and its value category. -/
structure Operand where
  type : CppType
  category : ValueCategory
  deriving DecidableEq

/-- The constructor that copy-initialising the exception object from the
operand runs: overload resolution among the constructors of the type of the
exception object, which is the static type of the operand. -/
def Operand.constructor {Val : Type} (P : Program Val) (op : Operand) :
    Option (CtorKind × Ctor Val) :=
  selectConstructor (P.constructors (exceptionObjectType op.type)) (isConstQualified op.type)
    op.category

/-- Whether `throw operand` is well-formed. -/
def Operand.throwable {Val : Type} (P : Program Val) (op : Operand) : Bool :=
  !isThrownByValue op.type || (op.constructor P).isSome

/-- The expression `std::forward<E>(e)` for a parameter `E&& e`: its type is
`E` without its reference, and it is an lvalue exactly when `E` is an lvalue
reference type. -/
def forwardAs (E : CppType) : Operand :=
  { type := remove_reference E
    category := match E with
      | .lvalueRef _ => .lvalue
      | _ => .xvalue }

/-- The template argument `E` of `make_exception_ptr<E>`, for which the
instantiation is well-formed in the program.  Deduction from an lvalue of type
`cv T` gives `cv T&`; from an rvalue it gives `cv T`. -/
structure TemplateArg {Val : Type} (P : Program Val) where
  type : CppType
  wellFormed : (forwardAs type).throwable P = true

/-- The expression `std::forward<E>(e)`. -/
def forward {Val : Type} {P : Program Val} (E : TemplateArg P) : Operand :=
  forwardAs E.type

/-! ## Machine state and statements -/

/-- Machine state visible to one call: the address of the entity that the
parameter `e` is bound to, the objects of the program (the caller's objects and
the exception objects alike; a new exception object takes the next free
address), and the stack of exceptions whose handler is active (innermost
first). -/
structure Machine (Val : Type) where
  arg : Address
  store : List (Object Val)
  handled : List Address
  deriving DecidableEq

/-- How a statement (or a function body) completes. -/
inductive Completion (ρ : Type) where
  | normal
  | returned (r : ρ)
  | raised (a : Address)
  | terminated
  | illFormed
  deriving DecidableEq

/-- A statement: a transformer of the machine state with a completion. -/
abbrev Stmt (Val ρ : Type) := Machine Val → Completion ρ × Machine Val

/-! ## Language and runtime primitives -/

/-- Copy-initialisation of the exception object from the operand.  An operand
thrown by value runs the constructor that overload resolution selects, on the
address of the argument; an array or function operand is converted to a
pointer and runs no constructor.  `none` when the initialisation is
ill-formed. -/
def initExceptionObject {Val : Type} (P : Program Val) (op : Operand) (m : Machine Val) :
    Option (CtorResult Val) :=
  if isThrownByValue op.type then
    match op.constructor P with
    | some (_, run) => some (run m.arg m.store)
    | none => none
  else
    some ⟨m.store, .built (P.decayed m.arg)⟩

/-- An exception object enters flight: it takes the next free address of the
store and control leaves the statement. -/
def raise {Val ρ : Type} (x : Object Val) : Stmt Val ρ :=
  fun m => (.raised m.store.length, { m with store := m.store ++ [x] })

/-- The statement `throw operand;`.  The exception object has the type
`exceptionObjectType` of the operand; when its initialisation exits via an
exception, that exception is raised instead: a new exception object enters
flight, or the existing one that was rethrown continues. -/
def throwExpr {Val ρ : Type} (P : Program Val) (op : Operand) : Stmt Val ρ :=
  fun m =>
    match initExceptionObject P op m with
    | some r =>
      match r.outcome with
      | .built v => raise ⟨exceptionObjectType op.type, v⟩ { m with store := r.store }
      | .threw x => raise x { m with store := r.store }
      | .rethrew a => (.raised a.val, { m with store := r.store })
    | none => (.illFormed, m)

/-- The statement `try body catch (...) handler`.  An exception raised by the body
is caught: it becomes the currently handled exception while the handler runs
and stops being handled when the handler is left. -/
def tryCatchAll {Val ρ : Type} (body handler : Stmt Val ρ) : Stmt Val ρ :=
  fun m =>
    match body m with
    | (.raised a, m1) =>
      match handler { m1 with handled := a :: m1.handled } with
      | (c, m2) => (c, { m2 with handled := m2.handled.tail })
    | r => r

/-- Model of `std::current_exception()`: refers to the currently handled
exception, null when no exception is being handled. -/
def current_exception {Val : Type} (m : Machine Val) : exception_ptr :=
  ⟨m.handled.head?⟩

/-- The statement `return expr;`. -/
def returnStmt {Val ρ : Type} (expr : Machine Val → ρ) : Stmt Val ρ :=
  fun m => (.returned (expr m), m)

/-- A function body declared `noexcept`: an exception leaving it calls
`std::terminate`. -/
def noexcept {Val ρ : Type} (body : Stmt Val ρ) : Stmt Val ρ :=
  fun m =>
    match body m with
    | (.raised _, m1) => (.terminated, m1)
    | r => r

/-- Model of `std::rethrow_exception(p)`: the exception object that is raised.
The call requires a non-null `p` that refers to a live exception object;
`none` stands for a violated precondition. -/
def rethrow_exception {Val : Type} (p : exception_ptr) (m : Machine Val) :
    Option (Object Val) :=
  match p.target with
  | some a => m.store[a]?
  | none => none

/-! ## The function under verification -/

/-- Embedding of `scratch::make_exception_ptr<E>(E&& e) noexcept`. -/
def make_exception_ptr {Val : Type} {P : Program Val} (E : TemplateArg P) :
    Stmt Val exception_ptr :=
  noexcept (tryCatchAll (throwExpr P (forward E)) (returnStmt current_exception))

/-! ## Derived notions used to state the properties -/

/-- The address of the exception object in flight after the initialisation: the
next free address, or the address of the existing object that was rethrown. -/
def CtorResult.handleTarget {Val : Type} (r : CtorResult Val) : Address :=
  match r.outcome with
  | .rethrew a => a.val
  | _ => r.store.length

/-- The objects of the program once the exception is in flight: those the
initialisation left, with the new exception object if there is one. -/
def CtorResult.storeAfter {Val : Type} (T : CppType) (r : CtorResult Val) : List (Object Val) :=
  match r.outcome with
  | .rethrew _ => r.store
  | _ => r.store ++ [r.inFlight T]

/-- Rethrowing, in the state a call left, the handle that the call returned. -/
def rethrown {Val : Type} (r : Completion exception_ptr × Machine Val) : Option (Object Val) :=
  match r.1 with
  | .returned p => rethrow_exception p r.2
  | _ => none

/-- The run-time type of the exception raised by rethrowing the returned handle. -/
def rethrownType {Val : Type} (r : Completion exception_ptr × Machine Val) : Option CppType :=
  (rethrown r).map Object.type

/-- The state in which the second of two consecutive calls starts: the state the
first call (on the entity at `a1`) left, with the parameter bound to the entity
at `a2`. -/
def betweenCalls {Val : Type} {P : Program Val} (E1 : TemplateArg P) (a1 a2 : Address)
    (m : Machine Val) :
    Machine Val :=
  { (make_exception_ptr E1 { m with arg := a1 }).2 with arg := a2 }

/-- Two consecutive calls in one calling context: the first on the entity at
`a1`, the second on the entity at `a2`. -/
def secondCall {Val : Type} {P : Program Val} (E1 E2 : TemplateArg P) (a1 a2 : Address)
    (m : Machine Val) :
    Completion exception_ptr × Machine Val :=
  make_exception_ptr E2 (betweenCalls E1 a1 a2 m)

/-- The ways of declaring an argument of type `T` without cv-qualifier: by value,
by lvalue reference, by rvalue reference. -/
def refForms (T : CppType) : List CppType :=
  [T, .lvalueRef T, .rvalueRef T]

/-- The ways of declaring an argument of type `T`: const or not, by value or by
reference. -/
def declaredForms (T : CppType) : List CppType :=
  refForms T ++ refForms (.const T)

/-- A cv-unqualified, non-reference type whose values are thrown by value: a
class, enumeration or arithmetic type, or a pointer. -/
def isPlainObjectType : CppType → Bool
  | .named _ => true
  | .pointerTo _ => true
  | _ => false

/-! ## Concrete types -/

/-- Object representation used by the concrete types: the member values. -/
abbrev Fields := List Int

/-- The members of the object at an address (none for a dangling address). -/
def contentAt (st : List (Object Fields)) (a : Address) : Fields :=
  match st[a]? with
  | some o => o.content
  | none => []

/-- Overwrite the members of the object at an address. -/
def setContent (st : List (Object Fields)) (a : Address) (c : Fields) : List (Object Fields) :=
  match st[a]? with
  | some o => st.set a ⟨o.type, c⟩
  | none => st

/-- A constructor that reads the first `size` members of its source (the
subobject of a class with `size` members) and changes nothing. -/
def readMembers (size : Nat) : Ctor Fields :=
  fun a st => ⟨st, .built ((contentAt st a).take size)⟩

/-- A constructor that duplicates the buffer of its source and changes nothing. -/
def duplicate : Ctor Fields :=
  fun a st => ⟨st, .built (contentAt st a)⟩

/-- A constructor that takes the buffer of its source over and leaves the
source empty. -/
def takeOver : Ctor Fields :=
  fun a st => ⟨setContent st a [], .built (contentAt st a)⟩

/-- A type with `size` members and implicitly defined copy and move
constructors, `struct S { int m1; ...; };` (with `size = 1` also a scalar). -/
def aggregate (size : Nat) : ClassType Fields :=
  { copyMut := .absent
    copyConst := .defined (readMembers size)
    moveMut := .defined (readMembers size)
    moveConst := .absent }

/-- A type without constructors, for array and function arguments. -/
def noConstructors : ClassType Fields :=
  { copyMut := .absent, copyConst := .absent, moveMut := .absent, moveConst := .absent }

/-- A class `struct Tracked { int code; unsigned copies; }` whose only
constructor from a `Tracked` is the counting copy constructor
`Tracked(const Tracked& o) : code(o.code), copies(o.copies + 1) {}`. -/
def Tracked : ClassType Fields :=
  { copyMut := .absent
    copyConst := .defined (fun a st =>
      ⟨st, match contentAt st a with
        | [code, copies] => .built [code, (copies + 1) % 4294967296]
        | w => .built w⟩)
    moveMut := .absent
    moveConst := .absent }

/-- A class owning a heap buffer whose copy constructor cannot allocate and
exits via `std::bad_alloc`; its move constructor takes the buffer over. -/
def Message : ClassType Fields :=
  { copyMut := .absent
    copyConst := .defined (fun _ st => ⟨st, .threw ⟨.named "std::bad_alloc", []⟩⟩)
    moveMut := .defined takeOver
    moveConst := .absent }

/-- A class owning a buffer: `Buffer(const Buffer&)` duplicates it,
`Buffer(Buffer&&)` takes it over and leaves the source empty. -/
def Buffer : ClassType Fields :=
  { copyMut := .absent
    copyConst := .defined duplicate
    moveMut := .defined takeOver
    moveConst := .absent }

/-- A class whose only constructor from a `Handoff` is `Handoff(Handoff& o)`,
which takes the buffer of `o` over (as `std::auto_ptr` did). -/
def Handoff : ClassType Fields :=
  { copyMut := .defined takeOver
    copyConst := .absent
    moveMut := .absent
    moveConst := .absent }

/-- A class whose copy constructor `Counted(const Counted&)` also increments an
instance counter, an `unsigned` object kept at address 0. -/
def Counted : ClassType Fields :=
  { copyMut := .absent
    copyConst := .defined (fun a st =>
      ⟨setContent st 0
          (match contentAt st 0 with
            | [n] => [(n + 1) % 4294967296]
            | w => w),
        .built (contentAt st a)⟩)
    moveMut := .absent
    moveConst := .absent }

/-- A class `struct Relay { std::exception_ptr pending; }` whose copy constructor
rethrows the pending exception: `Relay(const Relay& o) { std::rethrow_exception(o.pending); }`.
The member is the address the handle refers to. -/
def Relay : ClassType Fields :=
  { copyMut := .absent
    copyConst := .defined (fun a st =>
      match contentAt st a with
      | [h] =>
        if hlt : h.toNat < st.length then ⟨st, .rethrew ⟨h.toNat, hlt⟩⟩
        else ⟨st, .threw ⟨.named "std::bad_exception", []⟩⟩
      | _ => ⟨st, .threw ⟨.named "std::bad_exception", []⟩⟩)
    moveMut := .absent
    moveConst := .absent }

/-- The pointer value that refers to the entity at an address. -/
def pointerValue (a : Address) : Fields := [(a : Int)]

/-- The constructors of the types of the example program. -/
def exampleConstructors : CppType → ClassType Fields
  | .named "int" => aggregate 1
  | .pointerTo _ => aggregate 1
  | .named "ErrorCode" => aggregate 1
  | .named "Marker" => aggregate 0
  | .named "std::bad_alloc" => aggregate 0
  | .named "Base" => aggregate 1
  | .named "Derived" => aggregate 2
  | .named "Tracked" => Tracked
  | .named "Message" => Message
  | .named "Buffer" => Buffer
  | .named "Handoff" => Handoff
  | .named "Counted" => Counted
  | .named "Relay" => Relay
  | _ => noConstructors

/-- The example program: the scalar `int`, pointers,
`struct ErrorCode { int code; };`, `struct Marker {};`, `std::bad_alloc`,
`struct Base { int code; };`, `struct Derived : Base { int extra; };` and the
classes above. -/
def exampleProgram : Program Fields :=
  { constructors := exampleConstructors, decayed := pointerValue }

/-! ## Concrete instantiations -/

/-- The instantiation for an rvalue argument of type `ErrorCode`: `E = ErrorCode`. -/
def errorCodeRvalue : TemplateArg exampleProgram :=
  ⟨.named "ErrorCode", rfl⟩

/-- The instantiation for an lvalue argument of type `ErrorCode`: `E = ErrorCode&`. -/
def errorCodeLvalue : TemplateArg exampleProgram :=
  ⟨.lvalueRef (.named "ErrorCode"), rfl⟩

/-- The instantiation for an rvalue argument of the stateless `Marker`. -/
def markerRvalue : TemplateArg exampleProgram :=
  ⟨.named "Marker", rfl⟩

/-- The instantiation `E = Tracked&`. -/
def trackedLvalue : TemplateArg exampleProgram :=
  ⟨.lvalueRef (.named "Tracked"), rfl⟩

/-- The instantiation `E = Message&`. -/
def messageLvalue : TemplateArg exampleProgram :=
  ⟨.lvalueRef (.named "Message"), rfl⟩

/-- The instantiation `E = const Message&`. -/
def messageConstLvalue : TemplateArg exampleProgram :=
  ⟨.lvalueRef (.const (.named "Message")), rfl⟩

/-- The instantiation `E = std::bad_alloc&`. -/
def badAllocLvalue : TemplateArg exampleProgram :=
  ⟨.lvalueRef (.named "std::bad_alloc"), rfl⟩

/-- The instantiation `E = Buffer` (a non-const rvalue argument). -/
def bufferRvalue : TemplateArg exampleProgram :=
  ⟨.named "Buffer", rfl⟩

/-- The instantiation `E = const int&`. -/
def intConstLvalue : TemplateArg exampleProgram :=
  ⟨.lvalueRef (.const (.named "int")), rfl⟩

/-- The instantiation `E = Base&`. -/
def baseLvalue : TemplateArg exampleProgram :=
  ⟨.lvalueRef (.named "Base"), rfl⟩

/-- The instantiation `E = const Base&`. -/
def baseConstLvalue : TemplateArg exampleProgram :=
  ⟨.lvalueRef (.const (.named "Base")), rfl⟩

/-- The instantiation `E = const char (&)[4]`, as deduced for the literal `"abc"`. -/
def literal4 : TemplateArg exampleProgram :=
  ⟨.lvalueRef (.arrayOf (.const (.named "char")) 4), rfl⟩

/-- The instantiation `E = const char (&)[3]`, as deduced for the literal `"ab"`. -/
def literal3 : TemplateArg exampleProgram :=
  ⟨.lvalueRef (.arrayOf (.const (.named "char")) 3), rfl⟩

/-- The instantiation `E = void (&)(int)`, as deduced for the name of a function. -/
def functionLvalue : TemplateArg exampleProgram :=
  ⟨.lvalueRef (.function "void (int)"), rfl⟩

/-! ## Shared lemmas -/

/-- For a well-formed instantiation the initialisation of the exception object
always has a result. -/
theorem initExceptionObject_defined {Val : Type} {P : Program Val} (E : TemplateArg P)
    (m : Machine Val) : ∃ r, initExceptionObject P (forward E) m = some r := by
  have hw := E.wellFormed
  unfold Operand.throwable at hw
  unfold initExceptionObject forward
  by_cases hv : isThrownByValue (forwardAs E.type).type = true
  · simp only [hv, Bool.not_true, Bool.false_or] at hw
    simp only [hv, if_true]
    cases hs : (forwardAs E.type).constructor P with
    | none => rw [hs] at hw; simp at hw
    | some kc => exact ⟨_, rfl⟩
  · simp only [hv]
    exact ⟨_, rfl⟩

/-- Complete description of one call, given the result of the initialisation of
the exception object: it returns a handle to the exception object in flight;
the objects are those the initialisation left, with the new exception object
if there is one; the parameter binding and the stack of handled exceptions are
unchanged. -/
theorem make_exception_ptr_of_init {Val : Type} {P : Program Val} (E : TemplateArg P)
    (m : Machine Val) (r : CtorResult Val) (h : initExceptionObject P (forward E) m = some r) :
    make_exception_ptr E m =
      (.returned ⟨some r.handleTarget⟩,
        { arg := m.arg
          store := r.storeAfter (exceptionObjectType (remove_reference E.type))
          handled := m.handled }) := by
  unfold make_exception_ptr noexcept tryCatchAll throwExpr returnStmt current_exception raise
  rw [h]
  obtain ⟨st, o⟩ := r
  cases o <;>
    simp [CtorResult.handleTarget, CtorResult.storeAfter, CtorResult.inFlight, forward,
      forwardAs]

/-- The address of the exception in flight holds the exception in flight. -/
theorem storeAfter_handleTarget {Val : Type} (T : CppType) (r : CtorResult Val) :
    (r.storeAfter T)[r.handleTarget]? = some (r.inFlight T) := by
  obtain ⟨st, o⟩ := r
  cases o <;>
    simp [CtorResult.handleTarget, CtorResult.storeAfter, CtorResult.inFlight]

/-- The objects that the initialisation left are where it left them once the
exception is in flight. -/
theorem storeAfter_keeps {Val : Type} (T : CppType) (r : CtorResult Val) (a : Address)
    (ha : a < r.store.length) : (r.storeAfter T)[a]? = r.store[a]? := by
  obtain ⟨st, o⟩ := r
  cases o <;> simp only [CtorResult.storeAfter]
  · exact List.getElem?_append_left ha
  · exact List.getElem?_append_left ha

/-- The handle a call returns, rethrown in the state the call left, raises the
exception that the initialisation of the exception object put in flight. -/
theorem rethrow_of_init {Val : Type} {P : Program Val} (E : TemplateArg P) (m : Machine Val)
    (r : CtorResult Val) (h : initExceptionObject P (forward E) m = some r) :
    rethrow_exception ⟨some r.handleTarget⟩ (make_exception_ptr E m).2
      = some (r.inFlight (exceptionObjectType (remove_reference E.type))) := by
  rw [make_exception_ptr_of_init E m r h]
  exact storeAfter_handleTarget _ r

/-- Rethrowing the returned handle raises the exception in flight. -/
theorem rethrown_of_init {Val : Type} {P : Program Val} (E : TemplateArg P) (m : Machine Val)
    (r : CtorResult Val) (h : initExceptionObject P (forward E) m = some r) :
    rethrown (make_exception_ptr E m)
      = some (r.inFlight (exceptionObjectType (remove_reference E.type))) := by
  have h2 := rethrow_of_init E m r h
  rw [make_exception_ptr_of_init E m r h] at h2 ⊢
  exact h2

/-- When the object was built, it is the exception in flight. -/
theorem inFlight_of_built {Val : Type} (T : CppType) (r : CtorResult Val) (v : Val)
    (h : r.outcome = .built v) : r.inFlight T = ⟨T, v⟩ := by
  simp [CtorResult.inFlight, h]

/-- When the initialisation exited via an exception, that exception is in flight. -/
theorem inFlight_of_exception {Val : Type} (T : CppType) (r : CtorResult Val) (x : Object Val)
    (h : r.exception = some x) : r.inFlight T = x := by
  obtain ⟨st, o⟩ := r
  cases o <;> simp_all [CtorResult.inFlight, CtorResult.exception]

/-- For an argument thrown by value, the result of the initialisation is the
result of running, on the argument, the constructor that overload resolution
selects among the constructors of the static type. -/
theorem constructor_of_init {Val : Type} {P : Program Val} (E : TemplateArg P) (m : Machine Val)
    (r : CtorResult Val)
    (hv : isThrownByValue (remove_reference E.type) = true)
    (h : initExceptionObject P (forward E) m = some r) :
    ∃ k run,
      selectConstructor (P.constructors (exceptionObjectType (remove_reference E.type)))
          (isConstQualified (remove_reference E.type)) (forward E).category = some (k, run) ∧
      r = run m.arg m.store := by
  have hv2 : isThrownByValue (forward E).type = true := hv
  unfold initExceptionObject at h
  simp only [hv2, if_true] at h
  cases hs : (forward E).constructor P with
  | none => rw [hs] at h; simp at h
  | some kc =>
    obtain ⟨k, run⟩ := kc
    rw [hs] at h
    exact ⟨k, run, hs, (Option.some.inj h).symm⟩

/-- C1, as stated, fails: the copy construction of the `Tracked` value with
members `[42, 0]` does not throw, yet rethrowing the handle built from it as an
lvalue raises a `Tracked` with members `[42, 1]`, whose content differs from
that of the argument. -/
theorem roundtrip_fails_when_copy_alters_content :
    initExceptionObject exampleProgram (forward trackedLvalue)
        ⟨0, [⟨.named "Tracked", [42, 0]⟩], []⟩
      = some ⟨[⟨.named "Tracked", [42, 0]⟩], .built [42, 1]⟩
    ∧ rethrown (make_exception_ptr trackedLvalue ⟨0, [⟨.named "Tracked", [42, 0]⟩], []⟩)
        = some ⟨.named "Tracked", [42, 1]⟩
    ∧ rethrown (make_exception_ptr trackedLvalue ⟨0, [⟨.named "Tracked", [42, 0]⟩], []⟩)
        ≠ some ⟨.named "Tracked", [42, 0]⟩ := by
  refine ⟨rfl, rfl, ?_⟩
  decide

/-- C1, amended: for every type `T` that can be thrown and every value `V` of
type `T` (the object the argument designates) whose copy/move construction does
not throw and yields an object whose content equals `V`, the call returns a
handle, and rethrowing that handle raises an exception object of type `T` whose
content equals `V`. -/
theorem roundtrip_of_content_preserving_construction {Val : Type} {P : Program Val}
    (E : TemplateArg P) (m : Machine Val) (V : Object Val) (r : CtorResult Val)
    (hV : m.store[m.arg]? = some V)
    (hT : V.type = exceptionObjectType (remove_reference E.type))
    (h : initExceptionObject P (forward E) m = some r)
    (hok : r.outcome = .built V.content) :
    ∃ p, (make_exception_ptr E m).1 = .returned p ∧
      rethrow_exception p (make_exception_ptr E m).2 = some V := by
  have _ := hV
  refine ⟨⟨some r.handleTarget⟩, ?_, ?_⟩
  · rw [make_exception_ptr_of_init E m r h]
  · rw [rethrow_of_init E m r h, inFlight_of_built _ r _ hok, ← hT]

/-- Witness for C1: an `ErrorCode` carrying the code 42, passed as an rvalue,
is rethrown as an `ErrorCode` carrying 42; the `int` 42, passed as a
`const int&`, is rethrown as the `int` 42. -/
theorem roundtrip_error_code_42 :
    ((⟨0, [⟨.named "ErrorCode", [42]⟩], []⟩ : Machine Fields).store[0]?
          = some ⟨.named "ErrorCode", [42]⟩
      ∧ initExceptionObject exampleProgram (forward errorCodeRvalue)
            ⟨0, [⟨.named "ErrorCode", [42]⟩], []⟩
          = some ⟨[⟨.named "ErrorCode", [42]⟩], .built [42]⟩
      ∧ ∃ p, (make_exception_ptr errorCodeRvalue ⟨0, [⟨.named "ErrorCode", [42]⟩], []⟩).1
            = .returned p ∧
          rethrow_exception p
              (make_exception_ptr errorCodeRvalue ⟨0, [⟨.named "ErrorCode", [42]⟩], []⟩).2
            = some ⟨.named "ErrorCode", [42]⟩)
    ∧ ((⟨0, [⟨.named "int", [42]⟩], []⟩ : Machine Fields).store[0]? = some ⟨.named "int", [42]⟩
      ∧ initExceptionObject exampleProgram (forward intConstLvalue)
            ⟨0, [⟨.named "int", [42]⟩], []⟩
          = some ⟨[⟨.named "int", [42]⟩], .built [42]⟩
      ∧ ∃ p, (make_exception_ptr intConstLvalue ⟨0, [⟨.named "int", [42]⟩], []⟩).1
            = .returned p ∧
          rethrow_exception p
              (make_exception_ptr intConstLvalue ⟨0, [⟨.named "int", [42]⟩], []⟩).2
            = some ⟨.named "int", [42]⟩) :=
  ⟨⟨rfl, rfl, roundtrip_of_content_preserving_construction errorCodeRvalue
      ⟨0, [⟨.named "ErrorCode", [42]⟩], []⟩ ⟨.named "ErrorCode", [42]⟩
      ⟨[⟨.named "ErrorCode", [42]⟩], .built [42]⟩ rfl rfl rfl rfl⟩,
    ⟨rfl, rfl, roundtrip_of_content_preserving_construction intConstLvalue
      ⟨0, [⟨.named "int", [42]⟩], []⟩ ⟨.named "int", [42]⟩
      ⟨[⟨.named "int", [42]⟩], .built [42]⟩ rfl rfl rfl rfl⟩⟩

/-! ## C2: totality and non-propagation -/

/-- C2: for every template argument and every machine state the call returns
normally; the returned handle is non-null and refers to a live exception
object (rethrowing it raises that object); the call neither lets an exception
escape nor terminates. -/
theorem make_exception_ptr_returns_valid_handle {Val : Type} {P : Program Val}
    (E : TemplateArg P) (m : Machine Val) :
    ∃ (a : Address) (x : Object Val),
      (make_exception_ptr E m).1 = .returned ⟨some a⟩ ∧
      rethrow_exception ⟨some a⟩ (make_exception_ptr E m).2 = some x ∧
      (make_exception_ptr E m).1 ≠ .terminated ∧
      (make_exception_ptr E m).1 ≠ .normal ∧
      (make_exception_ptr E m).1 ≠ .illFormed ∧
      ∀ b, (make_exception_ptr E m).1 ≠ .raised b := by
  obtain ⟨r, h⟩ := initExceptionObject_defined E m
  refine ⟨r.handleTarget, r.inFlight (exceptionObjectType (remove_reference E.type)),
    ?_, rethrow_of_init E m r h, ?_, ?_, ?_, ?_⟩ <;>
    simp [make_exception_ptr_of_init E m r h]

/-! ## C3: a failing construction is captured -/

/-- C3: when the copy/move construction of the exception object exits via an
exception `X`, the call still returns a non-null handle, and rethrowing that
handle raises `X`. -/
theorem construction_failure_is_captured {Val : Type} {P : Program Val} (E : TemplateArg P)
    (m : Machine Val) (x : Object Val) (r : CtorResult Val)
    (h : initExceptionObject P (forward E) m = some r)
    (hx : r.exception = some x) :
    ∃ a, (make_exception_ptr E m).1 = .returned ⟨some a⟩ ∧
      rethrow_exception ⟨some a⟩ (make_exception_ptr E m).2 = some x := by
  refine ⟨r.handleTarget, ?_, ?_⟩
  · rw [make_exception_ptr_of_init E m r h]
  · rw [rethrow_of_init E m r h, inFlight_of_exception _ r x hx]

/-- Witness for C3: copying a `Message` exits via `std::bad_alloc`; the handle
built from a `Message` lvalue rethrows that `std::bad_alloc`, not a `Message`. -/
theorem construction_failure_message :
    initExceptionObject exampleProgram (forward messageLvalue)
        ⟨0, [⟨.named "Message", [1, 2, 3]⟩], []⟩
      = some ⟨[⟨.named "Message", [1, 2, 3]⟩], .threw ⟨.named "std::bad_alloc", []⟩⟩
    ∧ (⟨[⟨.named "Message", [1, 2, 3]⟩], .threw ⟨.named "std::bad_alloc", []⟩⟩ :
        CtorResult Fields).exception = some ⟨.named "std::bad_alloc", []⟩
    ∧ ∃ a, (make_exception_ptr messageLvalue ⟨0, [⟨.named "Message", [1, 2, 3]⟩], []⟩).1
          = .returned ⟨some a⟩ ∧
        rethrow_exception ⟨some a⟩
            (make_exception_ptr messageLvalue ⟨0, [⟨.named "Message", [1, 2, 3]⟩], []⟩).2
          = some ⟨.named "std::bad_alloc", []⟩ :=
  ⟨rfl, rfl,
    construction_failure_is_captured messageLvalue ⟨0, [⟨.named "Message", [1, 2, 3]⟩], []⟩
    ⟨.named "std::bad_alloc", []⟩
    ⟨[⟨.named "Message", [1, 2, 3]⟩], .threw ⟨.named "std::bad_alloc", []⟩⟩ rfl rfl⟩

/-! ## C4: type fidelity -/

/-- C4, as stated, fails in three ways.  (1) `Message` and `std::bad_alloc` are
different types, yet the handle built from a `Message` lvalue, whose copy
construction exits via `std::bad_alloc`, and the handle built from a
`std::bad_alloc` both rethrow a `std::bad_alloc`.  (2) The literals `"abc"` and
`"ab"` have the different types `const char[4]` and `const char[3]`, yet both
handles rethrow a `const char*`.  (3) A `Derived` object passed through a
`Base&` and a `Base` object have different types, yet both handles rethrow a
`Base`. -/
theorem type_fidelity_fails_on_throw_decay_and_slicing :
    (CppType.named "Message" ≠ CppType.named "std::bad_alloc"
      ∧ rethrownType (make_exception_ptr messageLvalue ⟨0, [⟨.named "Message", [1, 2, 3]⟩], []⟩)
          = some (.named "std::bad_alloc")
      ∧ rethrownType (make_exception_ptr badAllocLvalue ⟨0, [⟨.named "std::bad_alloc", []⟩], []⟩)
          = some (.named "std::bad_alloc"))
    ∧ (CppType.arrayOf (.const (.named "char")) 4 ≠ CppType.arrayOf (.const (.named "char")) 3
      ∧ rethrownType (make_exception_ptr literal4
            ⟨0, [⟨.arrayOf (.const (.named "char")) 4, [97, 98, 99, 0]⟩], []⟩)
          = some (.pointerTo (.const (.named "char")))
      ∧ rethrownType (make_exception_ptr literal3
            ⟨0, [⟨.arrayOf (.const (.named "char")) 3, [97, 98, 0]⟩], []⟩)
          = some (.pointerTo (.const (.named "char"))))
    ∧ (CppType.named "Derived" ≠ CppType.named "Base"
      ∧ rethrownType (make_exception_ptr baseLvalue ⟨0, [⟨.named "Derived", [7, 9]⟩], []⟩)
          = some (.named "Base")
      ∧ rethrownType (make_exception_ptr baseLvalue ⟨0, [⟨.named "Base", [7]⟩], []⟩)
          = some (.named "Base")) := by
  refine ⟨⟨by decide, rfl, rfl⟩, ⟨by decide, rfl, rfl⟩, ⟨by decide, rfl, rfl⟩⟩

/-- C4, amended: for two arguments whose static types, with the reference and
top-level cv-qualifiers removed and an array or function type replaced by the
pointer type it decays to, are different types `T1` and `T2`, and whose
copy/move construction does not throw, rethrowing the first handle raises an
exception of type `T1`, rethrowing the second raises one of type `T2`, and the
two rethrown types differ. -/
theorem type_fidelity_of_nonthrowing_construction {Val : Type} {P : Program Val}
    (E1 E2 : TemplateArg P) (m1 m2 : Machine Val) (w1 w2 : Val) (r1 r2 : CtorResult Val)
    (hne : exceptionObjectType (remove_reference E1.type)
      ≠ exceptionObjectType (remove_reference E2.type))
    (h1 : initExceptionObject P (forward E1) m1 = some r1) (hok1 : r1.outcome = .built w1)
    (h2 : initExceptionObject P (forward E2) m2 = some r2) (hok2 : r2.outcome = .built w2) :
    rethrownType (make_exception_ptr E1 m1)
      = some (exceptionObjectType (remove_reference E1.type)) ∧
    rethrownType (make_exception_ptr E2 m2)
      = some (exceptionObjectType (remove_reference E2.type)) ∧
    rethrownType (make_exception_ptr E1 m1) ≠ rethrownType (make_exception_ptr E2 m2) := by
  have t1 : rethrownType (make_exception_ptr E1 m1)
      = some (exceptionObjectType (remove_reference E1.type)) := by
    simp [rethrownType, rethrown_of_init E1 m1 r1 h1, inFlight_of_built _ r1 w1 hok1]
  have t2 : rethrownType (make_exception_ptr E2 m2)
      = some (exceptionObjectType (remove_reference E2.type)) := by
    simp [rethrownType, rethrown_of_init E2 m2 r2 h2, inFlight_of_built _ r2 w2 hok2]
  refine ⟨t1, t2, ?_⟩
  rw [t1, t2]
  intro h
  exact hne (Option.some.inj h)

/-- Witness for C4: a handle built from the stateless `Marker` rethrows exactly a
`Marker`, one built from an `ErrorCode` rethrows an `ErrorCode`, and the two
types differ. -/
theorem type_fidelity_marker_and_error_code :
    CppType.named "Marker" ≠ CppType.named "ErrorCode"
    ∧ initExceptionObject exampleProgram (forward markerRvalue) ⟨0, [⟨.named "Marker", []⟩], []⟩
        = some ⟨[⟨.named "Marker", []⟩], .built []⟩
    ∧ initExceptionObject exampleProgram (forward errorCodeLvalue)
          ⟨0, [⟨.named "ErrorCode", [42]⟩], []⟩
        = some ⟨[⟨.named "ErrorCode", [42]⟩], .built [42]⟩
    ∧ rethrownType (make_exception_ptr markerRvalue ⟨0, [⟨.named "Marker", []⟩], []⟩)
        = some (.named "Marker")
    ∧ rethrownType (make_exception_ptr errorCodeLvalue ⟨0, [⟨.named "ErrorCode", [42]⟩], []⟩)
        = some (.named "ErrorCode")
    ∧ rethrownType (make_exception_ptr markerRvalue ⟨0, [⟨.named "Marker", []⟩], []⟩)
        ≠ rethrownType
            (make_exception_ptr errorCodeLvalue ⟨0, [⟨.named "ErrorCode", [42]⟩], []⟩) :=
  ⟨by decide, rfl, rfl,
    type_fidelity_of_nonthrowing_construction markerRvalue errorCodeLvalue
      ⟨0, [⟨.named "Marker", []⟩], []⟩ ⟨0, [⟨.named "ErrorCode", [42]⟩], []⟩ [] [42]
      ⟨[⟨.named "Marker", []⟩], .built []⟩ ⟨[⟨.named "ErrorCode", [42]⟩], .built [42]⟩
      (by decide) rfl rfl rfl rfl⟩

/-! ## C7: the captured type is the static, decayed type of the argument -/

/-- C7, as stated, fails in three ways.  (1) An argument declared `const Message&`
does not make the handle rethrow a `Message`: the copy construction exits via
`std::bad_alloc` and the handle rethrows that.  (2) For the literal `"abc"`,
declared `const char (&)[4]`, the handle rethrows a `const char*`, which is the
decayed type and not the cv-unqualified non-reference type `char[4]` (nor
`const char[4]`).  (3) For a function, declared `void (&)(int)`, the handle
rethrows a pointer to function, not the function type. -/
theorem static_type_not_captured_on_throw_or_array :
    (rethrownType (make_exception_ptr messageConstLvalue
          ⟨0, [⟨.named "Message", [1, 2, 3]⟩], []⟩) = some (.named "std::bad_alloc")
      ∧ rethrownType (make_exception_ptr messageConstLvalue
          ⟨0, [⟨.named "Message", [1, 2, 3]⟩], []⟩) ≠ some (.named "Message"))
    ∧ (rethrownType (make_exception_ptr literal4
          ⟨0, [⟨.arrayOf (.const (.named "char")) 4, [97, 98, 99, 0]⟩], []⟩)
        = some (.pointerTo (.const (.named "char")))
      ∧ rethrownType (make_exception_ptr literal4
          ⟨0, [⟨.arrayOf (.const (.named "char")) 4, [97, 98, 99, 0]⟩], []⟩)
        ≠ some (.arrayOf (.named "char") 4)
      ∧ rethrownType (make_exception_ptr literal4
          ⟨0, [⟨.arrayOf (.const (.named "char")) 4, [97, 98, 99, 0]⟩], []⟩)
        ≠ some (.arrayOf (.const (.named "char")) 4))
    ∧ (rethrownType (make_exception_ptr functionLvalue ⟨0, [], []⟩)
        = some (.pointerTo (.function "void (int)"))
      ∧ rethrownType (make_exception_ptr functionLvalue ⟨0, [], []⟩)
        ≠ some (.function "void (int)")) := by
  refine ⟨⟨rfl, by decide⟩, ⟨rfl, by decide, by decide⟩, ⟨rfl, by decide⟩⟩

/-- C7, amended: for an argument whose copy/move construction does not throw,
the handle rethrows an object of the static, decayed type of the argument.  When
the declared type is `T`, const or not, by value or by reference, with `T` a
class, scalar or pointer type, that type is `T`; when it is an array of `U` (by
value or by reference) it is "pointer to `U`"; when it is a function type it is
"pointer to function".  The most-derived type of the object the argument refers
to plays no part: when it differs from the static type, the rethrown type is
the static one and not the most-derived one, and the rethrown object is what a
constructor of the static type built from the referenced object (the object is
sliced). -/
theorem captured_type_is_static_type {Val : Type} {P : Program Val} (E : TemplateArg P)
    (m : Machine Val) (w : Val) (r : CtorResult Val)
    (h : initExceptionObject P (forward E) m = some r) (hok : r.outcome = .built w) :
    rethrown (make_exception_ptr E m)
      = some ⟨exceptionObjectType (remove_reference E.type), w⟩ ∧
    (∀ T, isPlainObjectType T = true → E.type ∈ declaredForms T →
      rethrownType (make_exception_ptr E m) = some T) ∧
    (∀ U n, E.type ∈ refForms (.arrayOf U n) →
      rethrownType (make_exception_ptr E m) = some (.pointerTo U)) ∧
    (∀ s, E.type ∈ refForms (.function s) →
      rethrownType (make_exception_ptr E m) = some (.pointerTo (.function s))) ∧
    (∀ o, m.store[m.arg]? = some o →
      o.type ≠ exceptionObjectType (remove_reference E.type) →
      rethrownType (make_exception_ptr E m) ≠ some o.type) ∧
    (isThrownByValue (remove_reference E.type) = true →
      ∃ k run,
        selectConstructor (P.constructors (exceptionObjectType (remove_reference E.type)))
            (isConstQualified (remove_reference E.type)) (forward E).category
          = some (k, run) ∧
        r = run m.arg m.store) := by
  have hr : rethrown (make_exception_ptr E m)
      = some ⟨exceptionObjectType (remove_reference E.type), w⟩ := by
    rw [rethrown_of_init E m r h, inFlight_of_built _ r w hok]
  have ht : rethrownType (make_exception_ptr E m)
      = some (exceptionObjectType (remove_reference E.type)) := by
    simp [rethrownType, hr]
  refine ⟨hr, ?_, ?_, ?_, ?_, fun hv => constructor_of_init E m r hv h⟩
  · intro T hT hE
    rw [ht]
    simp only [declaredForms, refForms, List.mem_append, List.mem_cons, List.mem_singleton,
      List.mem_nil_iff, or_false] at hE
    cases T <;>
      first
      | (simp [isPlainObjectType] at hT; done)
      | (rcases hE with (hE | hE | hE) | (hE | hE | hE) <;>
          simp [hE, remove_reference, exceptionObjectType])
  · intro U n hE
    rw [ht]
    simp only [refForms, List.mem_cons, List.mem_singleton, List.mem_nil_iff, or_false] at hE
    rcases hE with hE | hE | hE <;> simp [hE, remove_reference, exceptionObjectType]
  · intro s hE
    rw [ht]
    simp only [refForms, List.mem_cons, List.mem_singleton, List.mem_nil_iff, or_false] at hE
    rcases hE with hE | hE | hE <;> simp [hE, remove_reference, exceptionObjectType]
  · intro o _ hne heq
    rw [ht] at heq
    exact hne (Option.some.inj heq).symm

/-- Witness for C7: a `const Base&` bound to a `Derived` object with members
`[7, 9]` makes the handle rethrow a `Base` with members `[7]`, not a `Derived`. -/
theorem slicing_through_base_reference :
    initExceptionObject exampleProgram (forward baseConstLvalue)
        ⟨0, [⟨.named "Derived", [7, 9]⟩], []⟩
      = some ⟨[⟨.named "Derived", [7, 9]⟩], .built [7]⟩
    ∧ rethrown (make_exception_ptr baseConstLvalue ⟨0, [⟨.named "Derived", [7, 9]⟩], []⟩)
        = some ⟨.named "Base", [7]⟩
    ∧ rethrownType (make_exception_ptr baseConstLvalue ⟨0, [⟨.named "Derived", [7, 9]⟩], []⟩)
        ≠ some (.named "Derived") :=
  ⟨rfl,
    (captured_type_is_static_type baseConstLvalue ⟨0, [⟨.named "Derived", [7, 9]⟩], []⟩ [7]
      ⟨[⟨.named "Derived", [7, 9]⟩], .built [7]⟩ rfl rfl).1,
    (captured_type_is_static_type baseConstLvalue ⟨0, [⟨.named "Derived", [7, 9]⟩], []⟩ [7]
      ⟨[⟨.named "Derived", [7, 9]⟩], .built [7]⟩ rfl rfl).2.2.2.2.1
      ⟨.named "Derived", [7, 9]⟩ rfl (by decide)⟩

/-! ## C5: ownership transfer is the only effect -/

/-- C6, as stated, fails in three ways.  (1) With `h1` built from a `Message`
lvalue, rethrowing `h1` raises the `std::bad_alloc` of the failed copy, not the
`Message`.  (2) With `h1` built from a `Tracked` lvalue with members `[42, 0]`,
rethrowing `h1` raises a `Tracked` with members `[42, 1]`.  (In both, `h2` is
then built from an `ErrorCode`.)  (3) With `h1` built
from a `Buffer` and `h2` then built from the exception object of `h1` itself,
passed as an rvalue (as a handler that caught it by reference can do), building
`h2` changes `h1`: it rethrew a `Buffer` holding `[1, 2, 3]` before and rethrows
an empty `Buffer` after. -/
theorem isolation_fails_on_throw_alteration_and_aliasing :
    ((make_exception_ptr messageLvalue
            ⟨0, [⟨.named "Message", [1, 2, 3]⟩, ⟨.named "ErrorCode", [42]⟩], []⟩).1
          = .returned ⟨some 2⟩
      ∧ rethrow_exception ⟨some 2⟩
          (secondCall messageLvalue errorCodeRvalue 0 1
            ⟨0, [⟨.named "Message", [1, 2, 3]⟩, ⟨.named "ErrorCode", [42]⟩], []⟩).2
          = some ⟨.named "std::bad_alloc", []⟩)
    ∧ ((make_exception_ptr trackedLvalue
            ⟨0, [⟨.named "Tracked", [42, 0]⟩, ⟨.named "ErrorCode", [42]⟩], []⟩).1
          = .returned ⟨some 2⟩
      ∧ rethrow_exception ⟨some 2⟩
          (secondCall trackedLvalue errorCodeRvalue 0 1
            ⟨0, [⟨.named "Tracked", [42, 0]⟩, ⟨.named "ErrorCode", [42]⟩], []⟩).2
          = some ⟨.named "Tracked", [42, 1]⟩)
    ∧ ((make_exception_ptr bufferRvalue ⟨0, [⟨.named "Buffer", [1, 2, 3]⟩], []⟩).1
          = .returned ⟨some 1⟩
      ∧ rethrow_exception ⟨some 1⟩
          (make_exception_ptr bufferRvalue ⟨0, [⟨.named "Buffer", [1, 2, 3]⟩], []⟩).2
          = some ⟨.named "Buffer", [1, 2, 3]⟩
      ∧ rethrow_exception ⟨some 1⟩
          (secondCall bufferRvalue bufferRvalue 0 1 ⟨0, [⟨.named "Buffer", [1, 2, 3]⟩], []⟩).2
          = some ⟨.named "Buffer", []⟩) := by
  refine ⟨⟨rfl, rfl⟩, ⟨rfl, rfl⟩, ⟨rfl, rfl, rfl⟩⟩

/-- C6, amended: building `h1` from the argument `V1` at `a1` and then `h2` from
the argument `V2` at `a2` in the same context returns two non-null handles and
leaves `h1` unchanged, provided the construction from `V2` leaves the exception
object of `h1` as it was: rethrowing `h1` after `h2` was built raises the same
exception as before.  Each handle rethrows what the construction from its own
argument produced (the object built, or the exception that construction exited
with): `h1` rethrows `(T1, V1)` when the construction from `V1` does not throw
and yields an object of type `T1` whose content equals `V1`, before `h2` is
built and, under the same proviso, after; `h2` rethrows `(T2, V2)` when the
construction from `V2` does not throw and preserves content. -/
theorem consecutive_captures_are_isolated {Val : Type} {P : Program Val}
    (E1 E2 : TemplateArg P) (a1 a2 : Address) (m : Machine Val) :
    ∃ p1 p2 r1 r2,
      initExceptionObject P (forward E1) { m with arg := a1 } = some r1 ∧
      initExceptionObject P (forward E2) (betweenCalls E1 a1 a2 m) = some r2 ∧
      (make_exception_ptr E1 { m with arg := a1 }).1 = .returned ⟨some p1⟩ ∧
      (secondCall E1 E2 a1 a2 m).1 = .returned ⟨some p2⟩ ∧
      rethrow_exception ⟨some p1⟩ (make_exception_ptr E1 { m with arg := a1 }).2
        = some (r1.inFlight (exceptionObjectType (remove_reference E1.type))) ∧
      rethrow_exception ⟨some p2⟩ (secondCall E1 E2 a1 a2 m).2
        = some (r2.inFlight (exceptionObjectType (remove_reference E2.type))) ∧
      (r2.store[p1]? = (betweenCalls E1 a1 a2 m).store[p1]? →
        rethrow_exception ⟨some p1⟩ (secondCall E1 E2 a1 a2 m).2
          = rethrow_exception ⟨some p1⟩ (make_exception_ptr E1 { m with arg := a1 }).2) ∧
      (∀ V1 : Object Val, m.store[a1]? = some V1 →
        V1.type = exceptionObjectType (remove_reference E1.type) →
        r1.outcome = .built V1.content →
        rethrow_exception ⟨some p1⟩ (make_exception_ptr E1 { m with arg := a1 }).2 = some V1 ∧
        (r2.store[p1]? = (betweenCalls E1 a1 a2 m).store[p1]? →
          rethrow_exception ⟨some p1⟩ (secondCall E1 E2 a1 a2 m).2 = some V1)) ∧
      (∀ V2 : Object Val, (betweenCalls E1 a1 a2 m).store[a2]? = some V2 →
        V2.type = exceptionObjectType (remove_reference E2.type) →
        r2.outcome = .built V2.content →
        rethrow_exception ⟨some p2⟩ (secondCall E1 E2 a1 a2 m).2 = some V2) := by
  obtain ⟨r1, h1⟩ := initExceptionObject_defined E1 { m with arg := a1 }
  obtain ⟨r2, h2⟩ := initExceptionObject_defined E2 (betweenCalls E1 a1 a2 m)
  have e1 := make_exception_ptr_of_init E1 { m with arg := a1 } r1 h1
  have e2 : secondCall E1 E2 a1 a2 m = _ :=
    make_exception_ptr_of_init E2 (betweenCalls E1 a1 a2 m) r2 h2
  have hr1 := rethrow_of_init E1 { m with arg := a1 } r1 h1
  have hr2 : rethrow_exception ⟨some r2.handleTarget⟩ (secondCall E1 E2 a1 a2 m).2 = _ :=
    rethrow_of_init E2 (betweenCalls E1 a1 a2 m) r2 h2
  have hb : (betweenCalls E1 a1 a2 m).store[r1.handleTarget]?
      = some (r1.inFlight (exceptionObjectType (remove_reference E1.type))) := by
    unfold betweenCalls
    rw [e1]
    exact storeAfter_handleTarget _ r1
  have hkeep : r2.store[r1.handleTarget]? = (betweenCalls E1 a1 a2 m).store[r1.handleTarget]? →
      rethrow_exception ⟨some r1.handleTarget⟩ (secondCall E1 E2 a1 a2 m).2
        = rethrow_exception ⟨some r1.handleTarget⟩
            (make_exception_ptr E1 { m with arg := a1 }).2 := by
    intro hk
    rw [hb] at hk
    have hlt : r1.handleTarget < r2.store.length := by
      by_contra hge
      rw [List.getElem?_eq_none (Nat.le_of_not_lt hge)] at hk
      exact Option.noConfusion hk
    rw [hr1, e2]
    simp only [rethrow_exception]
    rw [storeAfter_keeps _ r2 _ hlt]
    exact hk
  refine ⟨r1.handleTarget, r2.handleTarget, r1, r2, h1, h2, ?_, ?_, hr1, hr2, hkeep, ?_, ?_⟩
  · rw [e1]
  · rw [e2]
  · intro V1 _ hT hok
    have hV : r1.inFlight (exceptionObjectType (remove_reference E1.type)) = V1 := by
      rw [inFlight_of_built _ r1 _ hok, ← hT]
    refine ⟨by rw [hr1, hV], ?_⟩
    intro hk
    rw [hkeep hk, hr1, hV]
  · intro V2 _ hT hok
    rw [hr2, inFlight_of_built _ r2 _ hok, ← hT]

/-- Witness for C6: `h1` built from an `ErrorCode` carrying 42 and `h2` then built
from a `Marker`, inside a handler of an earlier exception: `h1` rethrows the
`ErrorCode` carrying 42 before and after, `h2` rethrows the `Marker`. -/
theorem isolation_error_code_then_marker :
    (make_exception_ptr errorCodeLvalue
        ⟨1, [⟨.named "X", [9]⟩, ⟨.named "ErrorCode", [42]⟩, ⟨.named "Marker", []⟩], [0]⟩).1
      = .returned ⟨some 3⟩
    ∧ (secondCall errorCodeLvalue markerRvalue 1 2
        ⟨0, [⟨.named "X", [9]⟩, ⟨.named "ErrorCode", [42]⟩, ⟨.named "Marker", []⟩], [0]⟩).1
      = .returned ⟨some 4⟩
    ∧ rethrow_exception ⟨some 3⟩ (make_exception_ptr errorCodeLvalue
        ⟨1, [⟨.named "X", [9]⟩, ⟨.named "ErrorCode", [42]⟩, ⟨.named "Marker", []⟩], [0]⟩).2
      = some ⟨.named "ErrorCode", [42]⟩
    ∧ rethrow_exception ⟨some 3⟩ (secondCall errorCodeLvalue markerRvalue 1 2
        ⟨0, [⟨.named "X", [9]⟩, ⟨.named "ErrorCode", [42]⟩, ⟨.named "Marker", []⟩], [0]⟩).2
      = some ⟨.named "ErrorCode", [42]⟩
    ∧ rethrow_exception ⟨some 4⟩ (secondCall errorCodeLvalue markerRvalue 1 2
        ⟨0, [⟨.named "X", [9]⟩, ⟨.named "ErrorCode", [42]⟩, ⟨.named "Marker", []⟩], [0]⟩).2
      = some ⟨.named "Marker", []⟩ := by
  obtain ⟨p1, p2, r1, r2, h1, h2, hp1, hp2, _, _, _, hV1, hV2⟩ :=
    consecutive_captures_are_isolated errorCodeLvalue markerRvalue 1 2
      ⟨0, [⟨.named "X", [9]⟩, ⟨.named "ErrorCode", [42]⟩, ⟨.named "Marker", []⟩], [0]⟩
  have e1 : p1 = 3 := by
    have h := hp1
    have h3 : (make_exception_ptr errorCodeLvalue
        { (⟨0, [⟨.named "X", [9]⟩, ⟨.named "ErrorCode", [42]⟩, ⟨.named "Marker", []⟩], [0]⟩ :
            Machine Fields) with arg := 1 }).1 = .returned ⟨some 3⟩ := rfl
    rw [h3] at h
    injection h with h
    injection h with h
    injection h with h
    exact h.symm
  have e2 : p2 = 4 := by
    have h := hp2
    have h4 : (secondCall errorCodeLvalue markerRvalue 1 2
        ⟨0, [⟨.named "X", [9]⟩, ⟨.named "ErrorCode", [42]⟩, ⟨.named "Marker", []⟩], [0]⟩).1
        = .returned ⟨some 4⟩ := rfl
    rw [h4] at h
    injection h with h
    injection h with h
    injection h with h
    exact h.symm
  subst e1 e2
  have q1 : r1 = ⟨[⟨.named "X", [9]⟩, ⟨.named "ErrorCode", [42]⟩, ⟨.named "Marker", []⟩],
      .built [42]⟩ := Option.some.inj (h1.symm.trans rfl)
  have q2 : r2 = ⟨[⟨.named "X", [9]⟩, ⟨.named "ErrorCode", [42]⟩, ⟨.named "Marker", []⟩,
      ⟨.named "ErrorCode", [42]⟩], .built []⟩ := Option.some.inj (h2.symm.trans rfl)
  subst q1 q2
  have v1 := hV1 ⟨.named "ErrorCode", [42]⟩ rfl rfl rfl
  have v2 := hV2 ⟨.named "Marker", []⟩ rfl rfl rfl
  exact ⟨rfl, rfl, v1.1, v1.2 rfl, v2⟩

end scratch
